import Mathlib

/-!
Shallow embedding of the analytics / resilient-generation core of the
ai-skill-gap-analyzer backend (Backend/app/api/career_advisor.py,
Backend/app/api/gap_analysis.py, Backend/app/api/trends.py), together with
theorems settling the specification claims about it.

Python real arithmetic is modelled over the rationals; Python `int(x)`
(truncation toward zero) and `round(x)` (banker's rounding, round half to
even) are given explicit models below.
-/

namespace SkillGap

/-- Python `int(x)` applied to a real value: truncation toward zero. -/
def pyTrunc (q : ℚ) : ℤ :=
  if 0 ≤ q then ⌊q⌋ else ⌈q⌉

/-- Python `round(x)` with no digits: round half to even (banker's rounding). -/
def pyRound (q : ℚ) : ℤ :=
  let f : ℤ := ⌊q⌋
  let r : ℚ := q - f
  if r < 1/2 then f
  else if 1/2 < r then f + 1
  else if f % 2 = 0 then f else f + 1

/-- Python `round(x, 1)`: banker's rounding at one decimal place. -/
def pyRound1 (q : ℚ) : ℚ :=
  (pyRound (10 * q) : ℚ) / 10

/-! ## Normalizer (career_advisor.py)

`_normalize_proficiency` and `_normalize_market_demand` are each defined twice
in `career_advisor.py`.  The first pair (lines 456-507) rescales out-of-range
input; the second pair (lines 3215-3230) merely clamps.  Python resolves the
global name at call time, so the second definitions shadow the first for every
call in the module.  Both are embedded.  Input is `Option ℚ`: `none` models
Python `None`.  `DEFAULT_PROFICIENCY = 3`, `DEFAULT_MARKET_DEMAND = 50`. -/

/-- First definition of `_normalize_proficiency` (career_advisor.py:456),
shadowed at call time by `normalize_proficiency` below.  Rescales values
above 5 as 0-100 percentages, then clamps to [1,5]. -/
def normalize_proficiency_v1 (proficiency : Option ℚ) : ℚ :=
  match proficiency with
  | none => 3
  | some p =>
    let p' := if 5 < p then (p / 100) * 5 else p
    max 1 (min 5 p')

/-- Second definition of `_normalize_proficiency` (career_advisor.py:3215),
the one in effect at call time.  `float(proficiency) if proficiency else
DEFAULT_PROFICIENCY`: both `None` and `0` are falsy and yield the default;
the result is clamped to [0,5] with no percentage rescaling. -/
def normalize_proficiency (proficiency : Option ℚ) : ℚ :=
  match proficiency with
  | none => 3
  | some p => if p = 0 then 3 else min 5 (max 0 p)

/-- First definition of `_normalize_market_demand` (career_advisor.py:483),
shadowed at call time.  Treats values in [0,1] as fractions and rescales by
`*100`, then clamps to [0,100]. -/
def normalize_market_demand_v1 (market_demand : Option ℚ) : ℚ :=
  match market_demand with
  | none => 50
  | some d =>
    let d' := if 0 ≤ d ∧ d ≤ 1 then d * 100 else d
    max 0 (min 100 d')

/-- Second definition of `_normalize_market_demand` (career_advisor.py:3224),
the one in effect at call time.  `float(demand) if demand else
DEFAULT_MARKET_DEMAND`: `None` and `0` are falsy and yield the default; the
result is clamped to [0,100] with no fraction rescaling. -/
def normalize_market_demand (market_demand : Option ℚ) : ℚ :=
  match market_demand with
  | none => 50
  | some d => if d = 0 then 50 else min 100 (max 0 d)

/-! ## ScoreEngine (career_advisor.py:510-656)

The four health sub-scores over a list of normalized skill records, and the
overall score (`get_career_health`, career_advisor.py:416-419).  The
`insight`-style log strings are presentation only and not modelled. -/

/-- A normalized skill record as consumed by the score engine: the dict
built in `get_career_health` (career_advisor.py:382-387); the `name` and
`category` fields are not used by any sub-score and are omitted. -/
structure NSkill where
  proficiency : ℚ
  market_demand : ℚ
deriving DecidableEq, Repr

/-- `calculate_skills_relevance` (career_advisor.py:510).  Weighted
proficiency-times-demand average plus a bonus of up to 20 points for the
fraction of skills with demand above 70, truncated and capped at 100. -/
def calculate_skills_relevance (skills : List NSkill) : ℤ :=
  if skills = [] then 50
  else
    let high_demand_count : ℕ := (skills.filter (fun s => 70 < s.market_demand)).length
    let total_weight : ℚ := (skills.map (fun s => s.proficiency * (s.market_demand / 100))).sum
    let max_possible : ℚ := (skills.length : ℚ) * 5
    let base_score : ℚ := if 0 < max_possible then total_weight / max_possible * 100 else 50
    let demand_bonus : ℚ := ((high_demand_count : ℚ) / (skills.length : ℚ)) * 20
    min 100 (pyTrunc (base_score + demand_bonus))

/-- `calculate_market_alignment` (career_advisor.py:550).  Average of market
demands weighted by proficiency, defaulting to 50 on zero total weight,
truncated and clamped to [0,100]. -/
def calculate_market_alignment (skills : List NSkill) : ℤ :=
  if skills = [] then 50
  else
    let weighted_sum : ℚ := (skills.map (fun s => s.market_demand * s.proficiency)).sum
    let total_weight : ℚ := (skills.map (fun s => s.proficiency)).sum
    if total_weight = 0 then 50
    else max 0 (min 100 (pyTrunc (weighted_sum / total_weight)))

/-- `calculate_learning_trajectory` (career_advisor.py:585).  Mean
proficiency scaled to 60% plus breadth (saturating at 20 skills) scaled to
40%, truncated and clamped to [0,100]. -/
def calculate_learning_trajectory (skills : List NSkill) : ℤ :=
  if skills = [] then 50
  else
    let avg_proficiency : ℚ := (skills.map (fun s => s.proficiency)).sum / (skills.length : ℚ)
    let proficiency_score : ℚ := (avg_proficiency / 5) * 60
    let diversity_score : ℚ := min ((skills.length : ℚ) / 20) 1 * 40
    max 0 (min 100 (pyTrunc (proficiency_score + diversity_score)))

/-- `statistics.median`: middle element of the sorted list for odd length,
mean of the two middle elements for even length.  The engine only calls it
on non-empty lists; the empty list is given the junk value 0. -/
def pyMedian (l : List ℚ) : ℚ :=
  let s := l.insertionSort (· ≤ ·)
  if s.length % 2 = 1 then s.getD (s.length / 2) 0
  else (s.getD (s.length / 2 - 1) 0 + s.getD (s.length / 2) 0) / 2

/-- `calculate_industry_demand` (career_advisor.py:620).  Median market
demand plus up to 10 bonus points for the fraction of skills with demand
above 75, truncated and clamped to [0,100]. -/
def calculate_industry_demand (skills : List NSkill) : ℤ :=
  if skills = [] then 50
  else
    let demands := skills.map (fun s => s.market_demand)
    let median_demand : ℚ := pyMedian demands
    let high_demand_ratio : ℚ := ((demands.filter (fun d => 75 < d)).length : ℚ) / (demands.length : ℚ)
    let bonus : ℚ := high_demand_ratio * 10
    max 0 (min 100 (pyTrunc (median_demand + bonus)))

/-- The overall health score (career_advisor.py:416-419):
`round((skills_relevance + market_alignment + learning_trajectory +
industry_demand) / 4)`. -/
def overall_health_score (skills : List NSkill) : ℤ :=
  pyRound (((calculate_skills_relevance skills
           + calculate_market_alignment skills
           + calculate_learning_trajectory skills
           + calculate_industry_demand skills : ℤ) : ℚ) / 4)

/-! ## GapAnalyzer (gap_analysis.py)

Strings are lowercased character-wise (`str.lower`); Python substring tests
(`x in s`) become decidable `List.IsInfix` checks over the character lists.
The human-readable `insight` strings are presentation only and omitted from
the record models. -/

/-- Python `s.lower()` on a string: character-wise lowercasing. -/
def strLower (s : String) : String :=
  String.mk (s.data.map Char.toLower)

/-- Python `needle in hay` substring test over character lists. -/
def containsSub (hay needle : List Char) : Bool :=
  decide (needle <:+: hay)

/-- The keyword table of `get_skill_category` (gap_analysis.py:28), in source
order, with the `replace("_"," ").title()` display names precomputed. -/
def skillCategories : List (String × List String) :=
  [ ("Programming Languages", ["python", "javascript", "java", "c++", "c#", "go", "rust", "typescript"])
  , ("Frontend", ["react", "vue", "angular", "html5", "css3", "tailwind", "bootstrap"])
  , ("Backend", ["django", "flask", "fastapi", "spring", "nodejs", "express", ".net"])
  , ("Devops", ["docker", "kubernetes", "terraform", "jenkins", "gitlab", "circleci", "aws", "gcp"])
  , ("Cloud", ["aws", "azure", "gcp", "ec2", "s3", "lambda", "firestore"])
  , ("Databases", ["sql", "mysql", "postgresql", "mongodb", "redis", "elasticsearch"])
  , ("Data", ["machine learning", "deep learning", "tensorflow", "pytorch", "data science"])
  , ("Tools", ["git", "jira", "slack", "figma", "adobe"])
  ]

/-- `get_skill_category` (gap_analysis.py:28): first category whose keyword
list has a substring match against the lowercased skill name, else "Other". -/
def get_skill_category (skill_name : String) : String :=
  let skill_lower := (strLower skill_name).toList
  match skillCategories.find? (fun c => c.2.any (fun s => containsSub skill_lower s.toList)) with
  | some c => c.1
  | none => "Other"

/-- `calculate_salary_impact` (gap_analysis.py:183): demand clamped to
[30,100] drives the magnitude, the proficiency gap a multiplier floored at
0.3; the result in lakhs is clamped to [1.5,15] and rounded to one decimal. -/
def calculate_salary_impact (market_demand current_prof target_prof : ℚ) : ℚ :=
  let md := if market_demand < 30 then 30
            else if 100 < market_demand then 100 else market_demand
  let base_value := md * 1000
  let prof_gain := max (3/10) ((target_prof - current_prof) / 5)
  let impact_lakhs := (base_value * prof_gain) / 100000
  pyRound1 (max (3/2) (min 15 impact_lakhs))

/-- One skill entry of a role template: `importance` and `min_proficiency`
are read with `.get` defaults, so both are optional. -/
structure SkillInfo where
  importance : Option String
  min_proficiency : Option ℚ
deriving DecidableEq, Repr

/-- One role of `role_requirements.json`, with its skill dicts as ordered
association lists. -/
structure RoleData where
  role_name : String
  required_skills : List (String × SkillInfo)
  optional_skills : List (String × SkillInfo)
deriving DecidableEq, Repr

/-- The parsed role-requirements file: `{"roles": [...]}`. -/
structure RoleRequirements where
  roles : List RoleData
deriving DecidableEq, Repr

/-- One value of the market-data dict built by `build_market_data_dict`;
`salary_impact` is optional because `calculate_gap_analysis` reads it with a
bare `.get`. -/
structure MarketInfo where
  demand_score : ℚ
  salary_impact : Option ℚ
  learning_hours : ℚ
deriving DecidableEq, Repr

/-- Python dict lookup over an association list with unique keys. -/
def dictFind (m : List (String × α)) (k : String) : Option α :=
  (m.find? (fun kv => kv.1 == k)).map (fun kv => kv.2)

/-- Python dict assignment `m[k] = v`: replace an existing binding in place,
else append. -/
def dictInsert (m : List (String × α)) (k : String) (v : α) : List (String × α) :=
  if m.any (fun kv => kv.1 == k) then m.map (fun kv => if kv.1 == k then (k, v) else kv)
  else m ++ [(k, v)]

/-- A critical-gap record emitted for a missing required skill
(gap_analysis.py:105). -/
structure GapEntry where
  name : String
  category : String
  priority : String
  marketDemand : ℚ
  salaryImpact : ℚ
  learningTime : ℚ
  requiredProficiency : ℚ
deriving DecidableEq, Repr

/-- An improvement-candidate record emitted for a missing optional skill
(gap_analysis.py:143). -/
structure ImproveEntry where
  name : String
  category : String
  gap : ℚ
  marketDemand : ℚ
  salaryImpact : ℚ
  learningTime : ℚ
  desiredProficiency : ℚ
  priority : String
deriving DecidableEq, Repr

/-- A matching-skill record emitted for an owned required or optional skill
(gap_analysis.py:116, 155). -/
structure MatchEntry where
  name : String
  category : String
  matchPercentage : ℚ
  proficiencyLevel : String
  yourLevel : String
deriving DecidableEq, Repr

/-- The result of `calculate_gap_analysis`. -/
structure GapAnalysis where
  critical_gaps : List GapEntry
  skills_to_improve : List ImproveEntry
  matching_skills : List MatchEntry
  overall_match_score : ℤ
deriving DecidableEq, Repr

/-- The market-data fields read for one required skill
(gap_analysis.py:94-101): demand defaults to 75, a missing or zero salary
impact is recomputed from demand, learning hours default to 200. -/
def requiredMarketFields (market_data : List (String × MarketInfo)) (skill_lower : String)
    (proficiency_required : ℚ) : ℚ × ℚ × ℚ :=
  let entry := dictFind market_data skill_lower
  let market_demand := (entry.map (fun mi => mi.demand_score)).getD 75
  let si0 := entry.bind (fun mi => mi.salary_impact)
  let salary_impact :=
    match si0 with
    | some v => if v = 0 then calculate_salary_impact market_demand 0 proficiency_required else v
    | none => calculate_salary_impact market_demand 0 proficiency_required
  let learning_time := (entry.map (fun mi => mi.learning_hours)).getD 200
  (market_demand, salary_impact, learning_time)

/-- The market-data fields read for one optional skill
(gap_analysis.py:131-138): demand defaults to 60, learning hours to 150. -/
def optionalMarketFields (market_data : List (String × MarketInfo)) (skill_lower : String)
    (proficiency_desired : ℚ) : ℚ × ℚ × ℚ :=
  let entry := dictFind market_data skill_lower
  let market_demand := (entry.map (fun mi => mi.demand_score)).getD 60
  let si0 := entry.bind (fun mi => mi.salary_impact)
  let salary_impact :=
    match si0 with
    | some v => if v = 0 then calculate_salary_impact market_demand 0 proficiency_desired else v
    | none => calculate_salary_impact market_demand 0 proficiency_desired
  let learning_time := (entry.map (fun mi => mi.learning_hours)).getD 150
  (market_demand, salary_impact, learning_time)

/-- `calculate_gap_analysis` (gap_analysis.py:50): diff the (lowercased)
user skill list against the selected role's required and optional skill
dicts; the overall match score is the truncated percentage of required
skills owned, 50 when the role has no required skills, 0 with empty lists
when the role is unknown. -/
def calculate_gap_analysis (user_skills : List String) (role_requirements : RoleRequirements)
    (selected_role : String) (market_data : List (String × MarketInfo)) : GapAnalysis :=
  let user_skills_lower := user_skills.map strLower
  match role_requirements.roles.find?
      (fun r => strLower r.role_name == strLower selected_role) with
  | none => ⟨[], [], [], 0⟩
  | some role_data =>
    let owned : String → Bool := fun n => user_skills_lower.contains (strLower n)
    let critical_gaps :=
      (role_data.required_skills.filter (fun kv => !owned kv.1)).map (fun kv =>
        let importance := kv.2.importance.getD "High"
        let proficiency_required := kv.2.min_proficiency.getD 3
        let f := requiredMarketFields market_data (strLower kv.1) proficiency_required
        { name := kv.1
          category := get_skill_category kv.1
          priority := if importance == "Critical" || importance == "High" then "High" else "Medium"
          marketDemand := f.1
          salaryImpact := f.2.1
          learningTime := f.2.2
          requiredProficiency := proficiency_required : GapEntry })
    let matching_required :=
      (role_data.required_skills.filter (fun kv => owned kv.1)).map (fun kv =>
        { name := kv.1
          category := get_skill_category kv.1
          matchPercentage := 95
          proficiencyLevel := "Advanced"
          yourLevel := "Advanced" : MatchEntry })
    let skills_to_improve :=
      (role_data.optional_skills.filter (fun kv => !owned kv.1)).map (fun kv =>
        let importance := kv.2.importance.getD "Medium"
        let proficiency_desired := kv.2.min_proficiency.getD 2
        let f := optionalMarketFields market_data (strLower kv.1) proficiency_desired
        { name := kv.1
          category := get_skill_category kv.1
          gap := 70
          marketDemand := f.1
          salaryImpact := f.2.1
          learningTime := f.2.2
          desiredProficiency := proficiency_desired
          priority := if importance == "Medium" then "Medium" else "Low" : ImproveEntry })
    let matching_optional :=
      (role_data.optional_skills.filter (fun kv => owned kv.1)).map (fun kv =>
        { name := kv.1
          category := get_skill_category kv.1
          matchPercentage := 85
          proficiencyLevel := "Intermediate"
          yourLevel := "Intermediate" : MatchEntry })
    let total_required := role_data.required_skills.length
    let matched_required :=
      (role_data.required_skills.filter (fun kv => owned kv.1)).length
    let overall_match_score : ℤ :=
      if 0 < total_required then pyTrunc ((matched_required : ℚ) / (total_required : ℚ) * 100)
      else 50
    ⟨critical_gaps, skills_to_improve, matching_required ++ matching_optional, overall_match_score⟩

/-- One row of the `SkillMarketData` table as read by
`build_market_data_dict`: a possibly-missing skill name and a demand score. -/
structure MarketRow where
  skill_name : Option String
  demand_score : ℚ
deriving DecidableEq, Repr

/-- `build_market_data_dict` (gap_analysis.py:217): index rows by lowercased
skill name, precomputing salary impact (target proficiency 3) and learning
hours `clamp(50,300, demand*2)`; rows without a name are skipped. -/
def build_market_data_dict (rows : List MarketRow) : List (String × MarketInfo) :=
  rows.foldl (fun acc item =>
    match item.skill_name with
    | none => acc
    | some n =>
      let salary_impact := calculate_salary_impact item.demand_score 0 3
      let learning_hours := max 50 (min 300 (item.demand_score * 2))
      dictInsert acc (strLower n) ⟨item.demand_score, some salary_impact, learning_hours⟩) []

/-- A stored candidate row; the endpoint reads none of its fields beyond
existence. -/
structure CandidateRec where
  name : String
  stored_skills : List String
deriving DecidableEq, Repr

/-- The database state visible to the gap-analysis endpoint. -/
structure GapDb where
  candidates : List (ℕ × CandidateRec)
  market_rows : List MarketRow
deriving DecidableEq, Repr

/-- The endpoint response fields relevant to the gap computation. -/
structure GapResponse where
  candidate_id : ℕ
  target_role : String
  critical_gaps : List GapEntry
  skills_to_improve : List ImproveEntry
  matching_skills : List MatchEntry
  overall_match_score : ℤ
deriving DecidableEq, Repr

/-- `get_gap_analysis` (gap_analysis.py:240): 404 for a missing candidate;
otherwise the gap analysis is computed over the hard-coded skill list
`["Python", "SQL", "REST APIs", "Docker", "Git", "JavaScript"]` - the
candidate's stored skills are never consulted.  A missing or empty role
falls back to "Software Developer". -/
def get_gap_analysis (db : GapDb) (candidate_id : ℕ) (role : Option String)
    (role_requirements : RoleRequirements) : Except ℕ GapResponse :=
  match db.candidates.find? (fun kv => kv.1 == candidate_id) with
  | none => .error 404
  | some _ =>
    let user_skills := ["Python", "SQL", "REST APIs", "Docker", "Git", "JavaScript"]
    let role' := match role with
      | none => "Software Developer"
      | some r => if r = "" then "Software Developer" else r
    let market_data_dict := build_market_data_dict db.market_rows
    let ga := calculate_gap_analysis user_skills role_requirements role' market_data_dict
    .ok ⟨candidate_id, role', ga.critical_gaps, ga.skills_to_improve,
         ga.matching_skills, ga.overall_match_score⟩

/-! ## TrendSynthesizer (trends.py:315-384)

`_generate_synthetic_trend_data`: per-skill base demand from a static table,
a rising / declining / stable pattern selected by keyword substring, every
point clamped to [30,100] and rounded. -/

/-- The static `base_demands` table of `_generate_synthetic_trend_data`
(trends.py:334). -/
def baseDemands : List (String × ℚ) :=
  [ ("react", 87), ("typescript", 82), ("python", 85), ("javascript", 90)
  , ("node.js", 80), ("nodejs", 80), ("docker", 75), ("kubernetes", 78)
  , ("aws", 88), ("java", 82), ("postgresql", 79), ("mongodb", 76)
  , ("redis", 73), ("graphql", 70), ("vue", 68), ("angular", 65)
  , ("rust", 72), ("go", 75), ("terraform", 74), ("ci/cd", 76)
  , ("system design", 80), ("microservices", 77), ("cloud", 82)
  , ("devops", 80), ("machine learning", 75), ("sql", 85)
  , ("git", 95), ("linux", 88), ("api", 85), ("rest", 84)
  ]

/-- Keywords classifying a skill as rising (trends.py:352). -/
def risingKeywords : List String :=
  ["typescript", "kubernetes", "rust", "go", "terraform", "system design"]

/-- Keywords classifying a skill as declining (trends.py:355). -/
def decliningKeywords : List String :=
  ["angular", "jquery", "php", "flash"]

/-- Base demand for a skill: table lookup on the lowercased name, default 70
(trends.py:347). -/
def synthBaseDemand (skill_name : String) : ℚ :=
  ((baseDemands.find? (fun kv => kv.1 == strLower skill_name)).map (fun kv => kv.2)).getD 70

/-- Rising-keyword test on the lowercased skill name. -/
def synthIsRising (skill_name : String) : Bool :=
  risingKeywords.any (fun x => containsSub (strLower skill_name).toList x.toList)

/-- Declining-keyword test on the lowercased skill name. -/
def synthIsDeclining (skill_name : String) : Bool :=
  decliningKeywords.any (fun x => containsSub (strLower skill_name).toList x.toList)

/-- The trend label assigned by `_generate_synthetic_trend_data`: the rising
branch is tested first, then declining, else stable. -/
def synthTrendType (skill_name : String) : String :=
  if synthIsRising skill_name then "rising"
  else if synthIsDeclining skill_name then "declining"
  else "stable"

/-- The pre-clamp pattern value for month index `i` (trends.py:353-359):
`base + i*0.8` rising, `base - i*0.5` declining, `base + (i % 3 - 1)`
stable. -/
def synthPattern (skill_name : String) (i : ℕ) : ℚ :=
  let base := synthBaseDemand skill_name
  if synthIsRising skill_name then base + i * (4/5)
  else if synthIsDeclining skill_name then base - i * (1/2)
  else base + (((i : ℤ) % 3 : ℤ) - 1)

/-- The synthetic trend payload (trends.py:380). -/
structure TrendData where
  monthly_demand : List ℤ
  trend : String
  percent_change : ℚ
  current_demand : ℤ
  data_source : String
deriving DecidableEq, Repr

/-- `_generate_synthetic_trend_data` (trends.py:315): one clamped, rounded
point per requested month, percent change from first to last point, tagged
`data_source = "estimated"`.  Callers request at least one month (the
endpoints declare `months ≥ 1`), so the first/last reads are guarded by that
precondition; the empty-list defaults model the guarded reads only. -/
def generate_synthetic_trend_data (skill_name : String) (months : ℕ) : TrendData :=
  let monthly_demand := (List.range months).map
    (fun i => pyRound (max 30 (min 100 (synthPattern skill_name i))))
  let first_value := monthly_demand.headD 0
  let last_value := monthly_demand.getLastD 0
  let percent_change : ℚ :=
    if first_value ≠ 0 then ((last_value : ℚ) - (first_value : ℚ)) / (first_value : ℚ) * 100
    else 0
  { monthly_demand := monthly_demand
    trend := synthTrendType skill_name
    percent_change := pyRound1 percent_change
    current_demand := last_value
    data_source := "estimated" }

/-! ## SummaryPipeline (career_advisor.py:2509-3230)

Summary payloads are modelled as ordered dicts mapping field names to JSON
values, where a value is a string or a list of strings (the shapes the
pipeline manipulates).  Python `str()` of a list renders elements quoted and
separated by ", " inside brackets.  `_generate_ai_summary` is embedded as a
function of the three bounded attempt outcomes of the external generator
(`MAX_RETRIES = 3`); sleeping between attempts has no observable effect on
the result and is not modelled. -/

/-- A JSON field value as handled by the summary pipeline: a string or a
list of strings, as character lists. -/
inductive FieldVal where
  | str (s : List Char)
  | list (l : List (List Char))
deriving DecidableEq, Repr

/-- A summary payload: an ordered dict of field name to value. -/
abbrev SummaryDict : Type := List (String × FieldVal)

/-- Python `sep.join(parts)`. -/
def pyJoin (sep : List Char) : List (List Char) → List Char
  | [] => []
  | [x] => x
  | x :: y :: xs => x ++ sep ++ pyJoin sep (y :: xs)

/-- Lowercase a character list (`str.lower`). -/
def lowerL (l : List Char) : List Char :=
  l.map Char.toLower

/-- The single quote character used by Python list reprs. -/
def quoteChar : Char := Char.ofNat 39

/-- Python `str(v)` for a pipeline field value: a string renders as itself, a
list as its repr `[e1-quoted, e2-quoted, ...]` (quote escaping inside
elements is not modelled; no claim depends on it). -/
def pyStrOfVal : FieldVal → List Char
  | .str s => s
  | .list l =>
    ['['] ++ pyJoin [',', ' '] (l.map (fun e => [quoteChar] ++ e ++ [quoteChar])) ++ [']']

/-- The character-wise effect of the chained
`.replace("[", " ").replace("]", " ").replace(",", " ")`
(career_advisor.py:3200). -/
def replChar (c : Char) : Char :=
  if c = '[' ∨ c = ']' ∨ c = ',' then ' ' else c

/-- `OFFENSIVE_KEYWORDS` (career_advisor.py:2509). -/
def OFFENSIVE_KEYWORDS : List String :=
  [ "explicit", "vulgar", "hate", "racist", "sexist", "discriminatory"
  , "harassment", "abuse", "illegal", "harmful", "dangerous" ]

/-- `_contains_offensive_content` (career_advisor.py:3183): join the
lowercased `str()` of every (string or list) field value with spaces,
blank out brackets and commas, then scan for any lowercased banned keyword
as a substring.  Every `FieldVal` is a string or list, so no value is
filtered out by the `isinstance` test.  `CONTENT_FILTER_ENABLED` is `True`. -/
def contains_offensive_content (summary_data : SummaryDict) : Bool :=
  let text_to_check :=
    (pyJoin [' '] (summary_data.map (fun kv => lowerL (pyStrOfVal kv.2)))).map replChar
  OFFENSIVE_KEYWORDS.any (fun kw => containsSub text_to_check (lowerL kw.toList))

/-- The required response fields (career_advisor.py:2720). -/
def requiredFields : List String :=
  ["summary", "key_strengths", "opportunities", "action_items", "timeline_to_goal", "salary_impact"]

/-- `missing_fields == []`: every required field is present in the payload. -/
def hasAllRequired (d : SummaryDict) : Bool :=
  requiredFields.all (fun f => d.any (fun kv => kv.1 == f))

/-- The non-list-to-list coercion applied to one field
(career_advisor.py:2744-2749): a string value is wrapped into a one-element
list, a list is kept. -/
def coerceListField (d : SummaryDict) (f : String) : SummaryDict :=
  match dictFind d f with
  | some (.str s) => dictInsert d f (.list [s])
  | _ => d

/-- The coercions for the three list-valued fields. -/
def coerceListFields (d : SummaryDict) : SummaryDict :=
  coerceListField (coerceListField (coerceListField d "key_strengths") "opportunities") "action_items"

/-- A candidate skill row as used by the summary pipeline: name and raw
proficiency. -/
structure PSkill where
  name : String
  proficiency : Option ℚ
deriving DecidableEq, Repr

/-- `_generate_template_summary` (career_advisor.py:2875): deterministic
template output.  Tier prose is embedded with apostrophes and rupee signs
elided; no claim depends on the exact wording.  The sort key is the
`_normalize_proficiency` in effect at call time (the clamping second
definition). -/
def generate_template_summary (skills : List PSkill) (overall_score : ℚ) : SummaryDict :=
  let top_skills := (skills.insertionSort
    (fun a b => normalize_proficiency b.proficiency ≤ normalize_proficiency a.proficiency)).take 3
  let skill_names := if top_skills.isEmpty then ["core skills"]
                     else top_skills.map (fun s => s.name)
  let joined := String.intercalate ", " skill_names
  let n := toString skills.length
  let fields :=
    if 80 ≤ overall_score then
      ( "You are a senior-level engineer with strong expertise in " ++ joined ++ ". Your "
          ++ n ++ "-skill portfolio and high proficiency levels position you well for "
          ++ "staff/principal roles. Focus on system design, architectural thinking, and "
          ++ "technical leadership."
      , [ "Architect complex distributed systems"
        , "Lead technical teams and set engineering standards"
        , "Become a technical authority in your domain" ]
      , [ "Master system design patterns and trade-offs"
        , "Lead a high-impact technical initiative"
        , "Mentor 2-3 junior engineers"
        , "Contribute to open source or speak at conferences"
        , "Build a personal brand in your specialty" ]
      , "3-6 months"
      , "Rs 4-7L increase potential" )
    else if 65 ≤ overall_score then
      ( "You are demonstrating solid growth with competency in " ++ joined ++ ". Your "
          ++ n ++ "-skill portfolio positions you for mid-to-senior level opportunities. "
          ++ "Deepen your expertise in high-demand areas and work on substantial projects."
      , [ "Progress to senior engineer roles"
        , "Specialize in high-demand technologies"
        , "Lead technical projects" ]
      , [ "Complete a system design course (DesignGuru, SystemDesign.io)"
        , "Lead or co-lead a technical project"
        , "Contribute meaningfully to one open source project"
        , "Practice technical interviews monthly"
        , "Learn cloud architecture (AWS, Azure, GCP)" ]
      , "6-12 months"
      , "Rs 3-5L increase potential" )
    else
      ( "You are building a solid foundation with skills like "
          ++ (if skill_names.isEmpty then "core technologies" else joined)
          ++ ". Prioritize practical experience and deep mastery of a few technologies "
          ++ "over breadth."
      , [ "Build strong fundamentals in core technologies"
        , "Gain real-world project experience"
        , "Contribute to team projects and learn from seniors" ]
      , [ "Master 2-3 core technologies deeply"
        , "Build 2-3 substantial portfolio projects"
        , "Read and contribute to code reviews"
        , "Complete structured learning programs (LLD, HLD basics)"
        , "Seek mentorship from senior engineers" ]
      , "12-18 months"
      , "Rs 2-4L increase potential" )
  [ ("summary", FieldVal.str fields.1.toList)
  , ("key_strengths", FieldVal.list
      ((if skill_names.isEmpty then ["Learning Ability", "Technical Fundamentals"]
        else skill_names).map String.toList))
  , ("opportunities", FieldVal.list (fields.2.1.map String.toList))
  , ("action_items", FieldVal.list (fields.2.2.1.map String.toList))
  , ("timeline_to_goal", FieldVal.str fields.2.2.2.1.toList)
  , ("salary_impact", FieldVal.str fields.2.2.2.2.toList)
  , ("source", FieldVal.str "template".toList) ]

/-- The observable outcome of one external generation attempt: a timeout, a
rate-limit error, any other API error, or a response whose parse attempt
(`json.loads` plus the bracket-matching rescue) yields `none` (unparseable)
or a payload dict. -/
inductive AttemptOutcome where
  | timeout
  | rateLimit
  | apiError
  | success (parsed : Option SummaryDict)
deriving DecidableEq

/-- An attempt that does not produce a parseable, structurally complete
response: the failure modes of the claim (timeout, rate limit, network /
API error, unparseable response, missing required fields). -/
def isFailedAttempt : AttemptOutcome → Bool
  | .timeout => true
  | .rateLimit => true
  | .apiError => true
  | .success none => true
  | .success (some p) => !hasAllRequired p

/-- What one iteration of the retry loop does: return a result, fall through
to the next attempt, or re-raise out of the loop. -/
inductive StepResult where
  | done (r : SummaryDict)
  | retry
  | raised
deriving DecidableEq

/-- One iteration of the retry loop of `_generate_ai_summary`
(career_advisor.py:2679-2778).  Timeouts and rate limits always `continue`;
other API errors (including the `ValueError` raised for an unparseable
response) re-raise on the last attempt and otherwise retry after backoff.  A
parsed response missing required fields, or failing the content filter,
returns the template immediately; otherwise the list-field coercions run and
the payload is returned with `source = "ai"`. -/
def attemptStep (tmpl : SummaryDict) (o : AttemptOutcome) (isLast : Bool) : StepResult :=
  match o with
  | .timeout => .retry
  | .rateLimit => .retry
  | .apiError => if isLast then .raised else .retry
  | .success none => if isLast then .raised else .retry
  | .success (some p) =>
    if !hasAllRequired p then .done tmpl
    else if contains_offensive_content p then .done tmpl
    else .done (dictInsert (coerceListFields p) "source" (FieldVal.str "ai".toList))

/-- The `for attempt in range(MAX_RETRIES)` loop; exhausting the loop falls
through to the template (career_advisor.py:2776). -/
def aiAttemptLoop (tmpl : SummaryDict) : List AttemptOutcome → Except Unit SummaryDict
  | [] => .ok tmpl
  | o :: rest =>
    match attemptStep tmpl o rest.isEmpty with
    | .done r => .ok r
    | .retry => aiAttemptLoop tmpl rest
    | .raised => .error ()

/-- `_generate_ai_summary` (career_advisor.py:2641): the retry loop under
the outer `try/except` that converts any escaped exception into the template
summary, so the function is total.  `MAX_RETRIES = 3`, hence three attempt
outcomes. -/
def generate_ai_summary (skills : List PSkill) (overall_score : ℚ)
    (o0 o1 o2 : AttemptOutcome) : SummaryDict :=
  let tmpl := generate_template_summary skills overall_score
  match aiAttemptLoop tmpl [o0, o1, o2] with
  | .ok r => r
  | .error _ => tmpl

/-- The `source` field of a payload. -/
def sourceOf (d : SummaryDict) : Option FieldVal :=
  dictFind d "source"

/-- Does the field value contain the keyword as a case-insensitive
substring?  For a list value: some element contains it. -/
def keywordInField (kw : String) : FieldVal → Bool
  | .str s => containsSub (lowerL s) (lowerL kw.toList)
  | .list l => l.any (fun e => containsSub (lowerL e) (lowerL kw.toList))

/-- Python whitespace stripped by `str.strip()`. -/
def isPySpace (c : Char) : Bool :=
  c = ' ' ∨ c = '\t' ∨ c = '\n' ∨ c = '\r' ∨ c = Char.ofNat 11 ∨ c = Char.ofNat 12

/-- Python `s.strip()`: drop leading and trailing whitespace. -/
def pyStrip (l : List Char) : List Char :=
  ((l.dropWhile isPySpace).reverse.dropWhile isPySpace).reverse

/-- Context instruction for `career_growth` (career_advisor.py:2829). -/
def ctxCareerGrowth : String :=
  "Focus on long-term career development, skill advancement, and leadership opportunities."

/-- Context instruction for `job_search` (career_advisor.py:2830). -/
def ctxJobSearch : String :=
  "Focus on immediate job market opportunities, interview preparation, and positioning."

/-- Context instruction for `upskilling` (career_advisor.py:2831). -/
def ctxUpskilling : String :=
  "Focus on specific skills to learn, courses to take, and learning paths."

/-- The components of the prompt built by `_build_summary_prompt`
(career_advisor.py:2816-2835) that the claims speak about: the skills
included in the skill summary line, the target-role text, and the selected
context instruction.  The surrounding fixed prose of the prompt carries no
data and is not modelled. -/
structure PromptParts where
  top_skills : List PSkill
  role_text : List Char
  context_instruction : String
deriving DecidableEq, Repr

/-- `_build_summary_prompt`: `top_skills = skills[:15]` (the input order,
with no sort), `target_role.strip()[:100]`, and the context-instruction
dict lookup with `career_growth` as the default. -/
def build_summary_prompt (skills : List PSkill) (target_role : Option (List Char))
    (context : String) : PromptParts :=
  { top_skills := skills.take 15
  , role_text :=
      match target_role with
      | some r => (pyStrip r).take 100
      | none => []
  , context_instruction :=
      if context = "career_growth" then ctxCareerGrowth
      else if context = "job_search" then ctxJobSearch
      else if context = "upskilling" then ctxUpskilling
      else ctxCareerGrowth }

/-- Modelled from the spec: the "top 15 by proficiency" skill selection the
claim asserts (skill list sorted by descending normalized proficiency before
truncation).  Stated for comparison with `build_summary_prompt`, which the
source implements without the sort. -/
def specTopSkillsByProficiency (skills : List PSkill) : List PSkill :=
  (skills.insertionSort
    (fun a b => normalize_proficiency b.proficiency ≤ normalize_proficiency a.proficiency)).take 15

/-! ## Concrete data used by witnesses and counterexamples -/

/-- Sixteen skills whose highest-proficiency entry is last: the first
fifteen at proficiency 1, the sixteenth at proficiency 5. -/
def exSkills16 : List PSkill :=
  [ ⟨"s01", some 1⟩, ⟨"s02", some 1⟩, ⟨"s03", some 1⟩, ⟨"s04", some 1⟩
  , ⟨"s05", some 1⟩, ⟨"s06", some 1⟩, ⟨"s07", some 1⟩, ⟨"s08", some 1⟩
  , ⟨"s09", some 1⟩, ⟨"s10", some 1⟩, ⟨"s11", some 1⟩, ⟨"s12", some 1⟩
  , ⟨"s13", some 1⟩, ⟨"s14", some 1⟩, ⟨"s15", some 1⟩, ⟨"s16", some 5⟩ ]

/-- A role with four required skills and no optional skills. -/
def exRole4 : RoleData :=
  { role_name := "Backend Developer"
  , required_skills :=
      [ ("Python", ⟨none, none⟩), ("SQL", ⟨none, none⟩)
      , ("Docker", ⟨none, none⟩), ("Kubernetes", ⟨none, none⟩) ]
  , optional_skills := [] }

/-- A requirements catalog holding only `exRole4`. -/
def exRoleReqs : RoleRequirements := ⟨[exRole4]⟩

/-- A parsed generation payload whose summary field contains the banned
keyword "explicit"; all required fields are present. -/
def exOffensivePayload : SummaryDict :=
  [ ("summary", FieldVal.str "this summary has explicit wording".toList)
  , ("key_strengths", FieldVal.list ["Python".toList])
  , ("opportunities", FieldVal.list ["growth".toList])
  , ("action_items", FieldVal.list ["learn".toList])
  , ("timeline_to_goal", FieldVal.str "6 months".toList)
  , ("salary_impact", FieldVal.str "modest".toList) ]

/-- A database with two distinct candidates holding different stored
skills. -/
def exGapDb : GapDb :=
  { candidates :=
      [ (1, ⟨"Asha", ["Rust", "Haskell"]⟩)
      , (2, ⟨"Ben", ["COBOL"]⟩) ]
  , market_rows := [⟨some "Python", 90⟩] }

/-- The four gap-computation fields of an endpoint response, `none` on an
error outcome. -/
def gapFields (r : Except ℕ GapResponse) :
    Option (List GapEntry × List ImproveEntry × List MatchEntry × ℤ) :=
  match r with
  | .error _ => none
  | .ok g => some (g.critical_gaps, g.skills_to_improve, g.matching_skills, g.overall_match_score)

/-! ## Arithmetic helper lemmas -/

theorem pyRound_le (q : ℚ) : (⌊q⌋ : ℤ) ≤ pyRound q ∧ pyRound q ≤ ⌈q⌉ := by
  unfold pyRound
  by_cases h1 : q - ⌊q⌋ < 1/2
  · simp only [h1, if_true]
    exact ⟨le_refl _, Int.floor_le_ceil q⟩
  · simp only [h1, if_false]
    have hup : ⌊q⌋ + 1 ≤ ⌈q⌉ := by
      have hf : (⌊q⌋ : ℚ) ≤ q := Int.floor_le q
      have hlt : (⌊q⌋ : ℚ) < q := by
        by_contra hc
        have : q = (⌊q⌋ : ℚ) := le_antisymm (not_lt.mp hc) hf
        rw [this] at h1
        simp at h1
      have hle : q ≤ (⌈q⌉ : ℚ) := Int.le_ceil q
      have : (⌊q⌋ : ℚ) < (⌈q⌉ : ℚ) := lt_of_lt_of_le hlt hle
      exact_mod_cast this
    by_cases h2 : 1/2 < q - ⌊q⌋
    · simp only [h2, if_true]
      exact ⟨by omega, by omega⟩
    · simp only [h2, if_false]
      refine ⟨?_, ?_⟩
      · split <;> omega
      · split <;> omega

theorem pyRound_bounds {a b : ℤ} {q : ℚ} (ha : (a:ℚ) ≤ q) (hb : q ≤ (b:ℚ)) :
    a ≤ pyRound q ∧ pyRound q ≤ b := by
  obtain ⟨h1, h2⟩ := pyRound_le q
  refine ⟨?_, ?_⟩
  · have : a ≤ ⌊q⌋ := Int.le_floor.mpr ha
    omega
  · have : ⌈q⌉ ≤ b := Int.ceil_le.mpr hb
    omega

theorem pyTrunc_nonneg {q : ℚ} (h : 0 ≤ q) : 0 ≤ pyTrunc q := by
  unfold pyTrunc
  simp only [h, if_true]
  exact Int.floor_nonneg.mpr h

theorem pyRound_intCast (n : ℤ) : pyRound ((n : ℤ) : ℚ) = n := by
  norm_num [pyRound, Int.floor_intCast]

theorem pyTrunc_intCast (n : ℤ) : pyTrunc ((n : ℤ) : ℚ) = n := by
  unfold pyTrunc
  split
  · exact Int.floor_intCast n
  · exact Int.ceil_intCast n

/-! ## Claims C2 and C3: the normalizers

The definitions in effect at call time (the second of each duplicated pair)
clamp but never rescale, contradicting the rescaling policy the spec states
and the shadowed first definitions implement. -/

/-- Claim C2: `normalizeProficiency(p)` always lies in [0,5] (this part
holds), but for `p > 5` the effective definition does NOT equal
`clamp(0,5, p/100*5)`: at `p = 80` the shadowing second definition returns
5 while the claimed rescaling formula (implemented by the shadowed first
definition) yields 4.  The claim is the documented intent; the code in
effect is the bug. -/
theorem claim_C2_normalize_proficiency :
    (∀ p : Option ℚ, 0 ≤ normalize_proficiency p ∧ normalize_proficiency p ≤ 5)
    ∧ normalize_proficiency (some 80) = 5
    ∧ max 0 (min 5 ((80 : ℚ) / 100 * 5)) = 4
    ∧ normalize_proficiency_v1 (some 80) = 4 := by
  refine ⟨?_, by norm_num [normalize_proficiency], by norm_num, by norm_num [normalize_proficiency_v1]⟩
  intro p
  match p with
  | none => constructor <;> norm_num [normalize_proficiency]
  | some q =>
    by_cases hq : q = 0
    · constructor <;> norm_num [normalize_proficiency, hq]
    · simp only [normalize_proficiency, hq, if_false]
      constructor
      · exact le_min (by norm_num) (le_max_left 0 q)
      · exact min_le_left 5 _

/-- Claim C3: `normalizeMarketDemand(d)` always lies in [0,100] (this part
holds), but for `0 ≤ d ≤ 1` the effective definition does NOT equal
`clamp(0,100, d*100)`: at `d = 0.5` the shadowing second definition returns
0.5 while the claimed rescaling formula (implemented by the shadowed first
definition) yields 50.  At `d = 0` it returns the falsy-input default 50
instead of 0.  The claim is the documented intent; the code in effect is
the bug. -/
theorem claim_C3_normalize_market_demand :
    (∀ d : Option ℚ, 0 ≤ normalize_market_demand d ∧ normalize_market_demand d ≤ 100)
    ∧ normalize_market_demand (some (1/2)) = 1/2
    ∧ max 0 (min 100 ((1/2 : ℚ) * 100)) = 50
    ∧ normalize_market_demand_v1 (some (1/2)) = 50
    ∧ normalize_market_demand (some 0) = 50 := by
  refine ⟨?_, by norm_num [normalize_market_demand], by norm_num,
          by norm_num [normalize_market_demand_v1], by norm_num [normalize_market_demand]⟩
  intro d
  match d with
  | none => constructor <;> norm_num [normalize_market_demand]
  | some q =>
    by_cases hq : q = 0
    · constructor <;> norm_num [normalize_market_demand, hq]
    · simp only [normalize_market_demand, hq, if_false]
      constructor
      · exact le_min (by norm_num) (le_max_left 0 q)
      · exact min_le_left 100 _

/-! ## Claim C8: salary impact -/

/-- Claim C8: for all demand, current and target proficiency, the salary
impact equals `round1(clamp(1.5, 15, clamp(30,100,demand)*1000 *
max(0.3,(target-current)/5) / 100000))`, and the instance demand=90,
current=0, target=5 evaluates to 0.9 clamped up to 1.5. -/
theorem claim_C8_salary_impact :
    (∀ d c t : ℚ, calculate_salary_impact d c t
      = pyRound1 (max (3/2) (min 15
          (max 30 (min 100 d) * 1000 * max (3/10) ((t - c) / 5) / 100000))))
    ∧ calculate_salary_impact 90 0 5 = 3/2 := by
  constructor
  · intro d c t
    have hmd : (if d < 30 then (30:ℚ) else if 100 < d then 100 else d) = max 30 (min 100 d) := by
      split_ifs with h1 h2
      · rw [min_eq_right (le_trans h1.le (by norm_num)), max_eq_left h1.le]
      · rw [min_eq_left h2.le, max_eq_right (by norm_num)]
      · rw [min_eq_right (not_lt.mp h2), max_eq_right (not_lt.mp h1)]
    simp only [calculate_salary_impact, hmd]
  · norm_num [calculate_salary_impact, pyRound1, pyRound]

/-! ## Claim C4: ScoreEngine bounds -/

theorem skills_relevance_bounds (skills : List NSkill)
    (h : ∀ s ∈ skills, 0 ≤ s.proficiency ∧ s.proficiency ≤ 5
        ∧ 0 ≤ s.market_demand ∧ s.market_demand ≤ 100) :
    0 ≤ calculate_skills_relevance skills ∧ calculate_skills_relevance skills ≤ 100 := by
  by_cases hs : skills = []
  · simp [calculate_skills_relevance, hs]
  · simp only [calculate_skills_relevance, hs, if_false]
    refine ⟨le_min (by norm_num) (pyTrunc_nonneg ?_), min_le_left _ _⟩
    have htw : 0 ≤ (skills.map (fun s => s.proficiency * (s.market_demand / 100))).sum := by
      apply List.sum_nonneg
      intro x hx
      obtain ⟨s, hsmem, rfl⟩ := List.mem_map.mp hx
      exact mul_nonneg (h s hsmem).1 (div_nonneg (h s hsmem).2.2.1 (by norm_num))
    have hbase : (0:ℚ) ≤
        (if 0 < (skills.length : ℚ) * 5
         then (skills.map (fun s => s.proficiency * (s.market_demand / 100))).sum
              / ((skills.length : ℚ) * 5) * 100
         else 50) := by
      split_ifs with hmp
      · exact mul_nonneg (div_nonneg htw hmp.le) (by norm_num)
      · norm_num
    have hbonus : (0:ℚ) ≤
        (((skills.filter (fun s => 70 < s.market_demand)).length : ℚ) / (skills.length : ℚ)) * 20 :=
      mul_nonneg (div_nonneg (Nat.cast_nonneg _) (Nat.cast_nonneg _)) (by norm_num)
    linarith

theorem market_alignment_bounds (skills : List NSkill) :
    0 ≤ calculate_market_alignment skills ∧ calculate_market_alignment skills ≤ 100 := by
  by_cases hs : skills = []
  · simp [calculate_market_alignment, hs]
  · simp only [calculate_market_alignment, hs, if_false]
    split_ifs with htw
    · norm_num
    · exact ⟨le_max_left 0 _, max_le (by norm_num) (min_le_left 100 _)⟩

theorem learning_trajectory_bounds (skills : List NSkill) :
    0 ≤ calculate_learning_trajectory skills ∧ calculate_learning_trajectory skills ≤ 100 := by
  by_cases hs : skills = []
  · simp [calculate_learning_trajectory, hs]
  · simp only [calculate_learning_trajectory, hs, if_false]
    exact ⟨le_max_left 0 _, max_le (by norm_num) (min_le_left 100 _)⟩

theorem industry_demand_bounds (skills : List NSkill) :
    0 ≤ calculate_industry_demand skills ∧ calculate_industry_demand skills ≤ 100 := by
  by_cases hs : skills = []
  · simp [calculate_industry_demand, hs]
  · simp only [calculate_industry_demand, hs, if_false]
    exact ⟨le_max_left 0 _, max_le (by norm_num) (min_le_left 100 _)⟩

/-- Claim C4: for every list of normalized skill records the four sub-scores
and the overall (rounded-mean) score lie in [0,100]; the empty list yields
exactly 50 for each. -/
theorem claim_C4_health_scores (skills : List NSkill)
    (h : ∀ s ∈ skills, 0 ≤ s.proficiency ∧ s.proficiency ≤ 5
        ∧ 0 ≤ s.market_demand ∧ s.market_demand ≤ 100) :
    (0 ≤ calculate_skills_relevance skills ∧ calculate_skills_relevance skills ≤ 100)
    ∧ (0 ≤ calculate_market_alignment skills ∧ calculate_market_alignment skills ≤ 100)
    ∧ (0 ≤ calculate_learning_trajectory skills ∧ calculate_learning_trajectory skills ≤ 100)
    ∧ (0 ≤ calculate_industry_demand skills ∧ calculate_industry_demand skills ≤ 100)
    ∧ (0 ≤ overall_health_score skills ∧ overall_health_score skills ≤ 100)
    ∧ (skills = [] →
        calculate_skills_relevance skills = 50 ∧ calculate_market_alignment skills = 50
        ∧ calculate_learning_trajectory skills = 50 ∧ calculate_industry_demand skills = 50
        ∧ overall_health_score skills = 50) := by
  obtain ⟨h1a, h1b⟩ := skills_relevance_bounds skills h
  obtain ⟨h2a, h2b⟩ := market_alignment_bounds skills
  obtain ⟨h3a, h3b⟩ := learning_trajectory_bounds skills
  obtain ⟨h4a, h4b⟩ := industry_demand_bounds skills
  have c1a : (0:ℚ) ≤ (calculate_skills_relevance skills : ℚ) := by exact_mod_cast h1a
  have c1b : (calculate_skills_relevance skills : ℚ) ≤ 100 := by exact_mod_cast h1b
  have c2a : (0:ℚ) ≤ (calculate_market_alignment skills : ℚ) := by exact_mod_cast h2a
  have c2b : (calculate_market_alignment skills : ℚ) ≤ 100 := by exact_mod_cast h2b
  have c3a : (0:ℚ) ≤ (calculate_learning_trajectory skills : ℚ) := by exact_mod_cast h3a
  have c3b : (calculate_learning_trajectory skills : ℚ) ≤ 100 := by exact_mod_cast h3b
  have c4a : (0:ℚ) ≤ (calculate_industry_demand skills : ℚ) := by exact_mod_cast h4a
  have c4b : (calculate_industry_demand skills : ℚ) ≤ 100 := by exact_mod_cast h4b
  refine ⟨⟨h1a, h1b⟩, ⟨h2a, h2b⟩, ⟨h3a, h3b⟩, ⟨h4a, h4b⟩, ?_, ?_⟩
  · unfold overall_health_score
    apply pyRound_bounds
    · push_cast
      linarith
    · push_cast
      linarith
  · intro hs
    subst hs
    have e1 : calculate_skills_relevance [] = 50 := by decide
    have e2 : calculate_market_alignment [] = 50 := by decide
    have e3 : calculate_learning_trajectory [] = 50 := by decide
    have e4 : calculate_industry_demand [] = 50 := by decide
    refine ⟨e1, e2, e3, e4, ?_⟩
    unfold overall_health_score
    rw [e1, e2, e3, e4]
    have hq : (((50 + 50 + 50 + 50 : ℤ) : ℚ) / 4) = ((50 : ℤ) : ℚ) := by norm_num
    rw [hq, pyRound_intCast]

/-! ## Claim C5: gap-analysis overall match score -/

/-- Claim C5: the overall match score is the truncated percentage of
required skills the candidate owns under case-insensitive matching, 50 when
the role defines no required skills, and 0 with all three lists empty when
the role is unknown; a role with 4 required skills of which 2 are owned
scores exactly 50. -/
theorem claim_C5_match_score :
    (∀ (us : List String) (rr : RoleRequirements) (sr : String)
        (md : List (String × MarketInfo)) (role_data : RoleData),
        rr.roles.find? (fun r => strLower r.role_name == strLower sr) = some role_data →
        (calculate_gap_analysis us rr sr md).overall_match_score =
          (if 0 < role_data.required_skills.length
           then pyTrunc
             (((role_data.required_skills.filter
                  (fun kv => (us.map strLower).contains (strLower kv.1))).length : ℚ)
               / (role_data.required_skills.length : ℚ) * 100)
           else 50))
    ∧ (∀ (us : List String) (rr : RoleRequirements) (sr : String)
        (md : List (String × MarketInfo)),
        rr.roles.find? (fun r => strLower r.role_name == strLower sr) = none →
        calculate_gap_analysis us rr sr md = ⟨[], [], [], 0⟩)
    ∧ (calculate_gap_analysis ["python", "sql"] exRoleReqs "backend developer" []).overall_match_score
        = 50 := by
  have ha : ∀ (us : List String) (rr : RoleRequirements) (sr : String)
      (md : List (String × MarketInfo)) (role_data : RoleData),
      rr.roles.find? (fun r => strLower r.role_name == strLower sr) = some role_data →
      (calculate_gap_analysis us rr sr md).overall_match_score =
        (if 0 < role_data.required_skills.length
         then pyTrunc
           (((role_data.required_skills.filter
                (fun kv => (us.map strLower).contains (strLower kv.1))).length : ℚ)
             / (role_data.required_skills.length : ℚ) * 100)
         else 50) := by
    intro us rr sr md role_data hfind
    simp only [calculate_gap_analysis, hfind]
  refine ⟨ha, ?_, ?_⟩
  · intro us rr sr md hfind
    simp only [calculate_gap_analysis, hfind]
  · have hfind : exRoleReqs.roles.find?
        (fun r => strLower r.role_name == strLower "backend developer") = some exRole4 := by
      decide
    rw [ha ["python", "sql"] exRoleReqs "backend developer" [] exRole4 hfind]
    have hlen2 : (exRole4.required_skills.filter
        (fun kv => ((["python", "sql"] : List String).map strLower).contains (strLower kv.1))).length
        = 2 := by decide
    have hlen4 : exRole4.required_skills.length = 4 := by decide
    rw [hlen2, hlen4]
    have hq : (((2 : ℕ) : ℚ) / ((4 : ℕ) : ℚ) * 100) = ((50 : ℤ) : ℚ) := by norm_num
    rw [if_pos (by norm_num), hq, pyTrunc_intCast]

/-- Witness for claim C5: the found-role branch at the concrete
4-required-skill role, and the unknown-role branch at an empty catalog. -/
theorem claim_C5_witness :
    (calculate_gap_analysis ["python", "sql"] exRoleReqs "backend developer" []).overall_match_score
      = (if 0 < exRole4.required_skills.length
         then pyTrunc
           (((exRole4.required_skills.filter
                (fun kv => ((["python", "sql"] : List String).map strLower).contains (strLower kv.1))).length : ℚ)
             / (exRole4.required_skills.length : ℚ) * 100)
         else 50)
    ∧ calculate_gap_analysis ["python"] ⟨[]⟩ "Backend Developer" [] = ⟨[], [], [], 0⟩ :=
  ⟨claim_C5_match_score.1 ["python", "sql"] exRoleReqs "backend developer" [] exRole4 (by decide),
   claim_C5_match_score.2.1 ["python"] ⟨[]⟩ "Backend Developer" [] (by rfl)⟩

/-- Witness for claim C4 at the singleton normalized record
(proficiency 3, demand 80). -/
theorem claim_C4_witness :
    (0 ≤ calculate_skills_relevance [⟨3, 80⟩] ∧ calculate_skills_relevance [⟨3, 80⟩] ≤ 100)
    ∧ (0 ≤ calculate_market_alignment [⟨3, 80⟩] ∧ calculate_market_alignment [⟨3, 80⟩] ≤ 100)
    ∧ (0 ≤ calculate_learning_trajectory [⟨3, 80⟩] ∧ calculate_learning_trajectory [⟨3, 80⟩] ≤ 100)
    ∧ (0 ≤ calculate_industry_demand [⟨3, 80⟩] ∧ calculate_industry_demand [⟨3, 80⟩] ≤ 100)
    ∧ (0 ≤ overall_health_score [⟨3, 80⟩] ∧ overall_health_score [⟨3, 80⟩] ≤ 100)
    ∧ (([⟨3, 80⟩] : List NSkill) = [] →
        calculate_skills_relevance [⟨3, 80⟩] = 50 ∧ calculate_market_alignment [⟨3, 80⟩] = 50
        ∧ calculate_learning_trajectory [⟨3, 80⟩] = 50 ∧ calculate_industry_demand [⟨3, 80⟩] = 50
        ∧ overall_health_score [⟨3, 80⟩] = 50) :=
  claim_C4_health_scores [⟨3, 80⟩] (by decide)

/-! ## Claim C6: synthetic trend series -/

/-- Claim C6: for every skill name and requested positive number of months,
the synthetic series has exactly the requested length, every point lies in
[30,100] (clamped then rounded), the payload is tagged
`data_source = "estimated"`, and a skill name containing "kubernetes"
follows the rising pattern `base + i*0.8`, which is monotonically
non-decreasing before clamping. -/
theorem claim_C6_synthetic_trend (skill_name : String) (months : ℕ) (_hm : 0 < months) :
    (generate_synthetic_trend_data skill_name months).monthly_demand.length = months
    ∧ (∀ v ∈ (generate_synthetic_trend_data skill_name months).monthly_demand,
        30 ≤ v ∧ v ≤ 100)
    ∧ (generate_synthetic_trend_data skill_name months).data_source = "estimated"
    ∧ (containsSub (strLower skill_name).toList "kubernetes".toList = true →
        (generate_synthetic_trend_data skill_name months).trend = "rising"
        ∧ (∀ i : ℕ, synthPattern skill_name i = synthBaseDemand skill_name + (i : ℚ) * (4/5))
        ∧ (∀ i j : ℕ, i ≤ j → synthPattern skill_name i ≤ synthPattern skill_name j)) := by
  refine ⟨?_, ?_, rfl, ?_⟩
  · simp [generate_synthetic_trend_data]
  · intro v hv
    simp only [generate_synthetic_trend_data, List.mem_map, List.mem_range] at hv
    obtain ⟨i, _, rfl⟩ := hv
    have h30 : ((30 : ℤ) : ℚ) ≤ max 30 (min 100 (synthPattern skill_name i)) := by
      push_cast
      exact le_max_left _ _
    have h100 : max 30 (min 100 (synthPattern skill_name i)) ≤ ((100 : ℤ) : ℚ) := by
      push_cast
      exact max_le (by norm_num) (min_le_left _ _)
    exact pyRound_bounds h30 h100
  · intro hk
    have hrising : synthIsRising skill_name = true :=
      List.any_eq_true.mpr ⟨"kubernetes", by simp [risingKeywords], hk⟩
    refine ⟨?_, ?_, ?_⟩
    · simp [generate_synthetic_trend_data, synthTrendType, hrising]
    · intro i
      simp [synthPattern, hrising]
    · intro i j hij
      simp only [synthPattern, hrising, if_true]
      have hc : (i : ℚ) ≤ (j : ℚ) := Nat.cast_le.mpr hij
      have := mul_le_mul_of_nonneg_right hc (by norm_num : (0:ℚ) ≤ 4/5)
      linarith

/-- Witness for claim C6 at skill name "kubernetes" and six months. -/
theorem claim_C6_witness :
    (generate_synthetic_trend_data "kubernetes" 6).monthly_demand.length = 6
    ∧ (∀ v ∈ (generate_synthetic_trend_data "kubernetes" 6).monthly_demand,
        30 ≤ v ∧ v ≤ 100)
    ∧ (generate_synthetic_trend_data "kubernetes" 6).data_source = "estimated"
    ∧ (containsSub (strLower "kubernetes").toList "kubernetes".toList = true →
        (generate_synthetic_trend_data "kubernetes" 6).trend = "rising"
        ∧ (∀ i : ℕ, synthPattern "kubernetes" i = synthBaseDemand "kubernetes" + (i : ℚ) * (4/5))
        ∧ (∀ i j : ℕ, i ≤ j → synthPattern "kubernetes" i ≤ synthPattern "kubernetes" j)) :=
  claim_C6_synthetic_trend "kubernetes" 6 (by decide)

/-! ## Claim C9: prompt construction

The claim asserts the prompt's skill list is the top 15 by proficiency,
i.e. sorted before truncation.  The source (`_build_summary_prompt`,
career_advisor.py:2817) truncates with `skills[:15]` in input order and its
callers pass the skill rows unsorted, so a high-proficiency skill in
position 16 is dropped. -/

/-- Counterexample to claim C9 as stated: on a 16-skill list whose
highest-proficiency skill is last, the prompt's included skills are not the
top 15 by proficiency. -/
theorem claim_C9_counterexample :
    (build_summary_prompt exSkills16 none "career_growth").top_skills
      ≠ specTopSkillsByProficiency exSkills16 := by
  decide

/-- Claim C9 as amended: the prompt includes at most 15 skills, namely the
first 15 of the input list in input order (no sort by proficiency); the
target-role text is limited to 100 characters; the context instruction is
drawn from the fixed set {career_growth, job_search, upskilling}. -/
theorem claim_C9_prompt_truncation (skills : List PSkill) (target_role : Option (List Char))
    (context : String) :
    (build_summary_prompt skills target_role context).top_skills = skills.take 15
    ∧ (build_summary_prompt skills target_role context).top_skills.length ≤ 15
    ∧ (build_summary_prompt skills target_role context).role_text.length ≤ 100
    ∧ ((build_summary_prompt skills target_role context).context_instruction = ctxCareerGrowth
       ∨ (build_summary_prompt skills target_role context).context_instruction = ctxJobSearch
       ∨ (build_summary_prompt skills target_role context).context_instruction = ctxUpskilling) := by
  refine ⟨rfl, ?_, ?_, ?_⟩
  · simp only [build_summary_prompt, List.length_take]
    omega
  · cases target_role with
    | none => simp [build_summary_prompt]
    | some r =>
      simp only [build_summary_prompt, List.length_take]
      omega
  · simp only [build_summary_prompt]
    split_ifs
    · exact Or.inl rfl
    · exact Or.inr (Or.inl rfl)
    · exact Or.inr (Or.inr rfl)
    · exact Or.inl rfl

/-! ## Claim C10: candidate-independence of the gap endpoint -/

/-- Claim C10: for any two existing candidates and a fixed role,
requirements catalog and market table, `get_gap_analysis` returns identical
critical gaps, skills to improve, matching skills and overall match score:
the computation runs over a hard-coded skill list and never reads the
candidate's stored skills. -/
theorem claim_C10_candidate_independent (db : GapDb) (c1 c2 : ℕ) (role : Option String)
    (rr : RoleRequirements)
    (h1 : (db.candidates.find? (fun kv => kv.1 == c1)).isSome = true)
    (h2 : (db.candidates.find? (fun kv => kv.1 == c2)).isSome = true) :
    gapFields (get_gap_analysis db c1 role rr) = gapFields (get_gap_analysis db c2 role rr)
    ∧ (gapFields (get_gap_analysis db c1 role rr)).isSome = true := by
  obtain ⟨p1, hp1⟩ := Option.isSome_iff_exists.mp h1
  obtain ⟨p2, hp2⟩ := Option.isSome_iff_exists.mp h2
  constructor
  · simp only [get_gap_analysis, hp1, hp2, gapFields]
  · simp only [get_gap_analysis, hp1, gapFields, Option.isSome_some]

/-- Witness for claim C10: the two stored candidates of `exGapDb` (who hold
different stored skills) receive the same gap analysis. -/
theorem claim_C10_witness :
    gapFields (get_gap_analysis exGapDb 1 none exRoleReqs)
      = gapFields (get_gap_analysis exGapDb 2 none exRoleReqs)
    ∧ (gapFields (get_gap_analysis exGapDb 1 none exRoleReqs)).isSome = true :=
  claim_C10_candidate_independent exGapDb 1 2 none exRoleReqs (by decide) (by decide)

/-! ## SummaryPipeline helper lemmas -/

theorem hasAllRequired_template (skills : List PSkill) (overall_score : ℚ) :
    hasAllRequired (generate_template_summary skills overall_score) = true := by
  rfl

theorem sourceOf_template (skills : List PSkill) (overall_score : ℚ) :
    sourceOf (generate_template_summary skills overall_score)
      = some (FieldVal.str "template".toList) := by
  rfl

theorem attemptStep_failed (tmpl : SummaryDict) (o : AttemptOutcome) (last : Bool)
    (h : isFailedAttempt o = true) :
    attemptStep tmpl o last = .done tmpl ∨ attemptStep tmpl o last = .retry
    ∨ attemptStep tmpl o last = .raised := by
  cases o with
  | timeout => exact Or.inr (Or.inl rfl)
  | rateLimit => exact Or.inr (Or.inl rfl)
  | apiError =>
    cases last
    · exact Or.inr (Or.inl rfl)
    · exact Or.inr (Or.inr rfl)
  | success parsed =>
    cases parsed with
    | none =>
      cases last
      · exact Or.inr (Or.inl rfl)
      · exact Or.inr (Or.inr rfl)
    | some p =>
      have hh : hasAllRequired p = false := by simpa [isFailedAttempt] using h
      left
      simp [attemptStep, hh]

theorem aiAttemptLoop_all_failed (tmpl : SummaryDict) (l : List AttemptOutcome)
    (h : ∀ o ∈ l, isFailedAttempt o = true) :
    aiAttemptLoop tmpl l = .ok tmpl ∨ aiAttemptLoop tmpl l = .error () := by
  induction l with
  | nil => exact Or.inl rfl
  | cons o rest ih =>
    rcases attemptStep_failed tmpl o rest.isEmpty (h o (List.mem_cons_self o rest)) with h' | h' | h'
    · left
      simp [aiAttemptLoop, h']
    · have := ih (fun x hx => h x (List.mem_cons_of_mem o hx))
      simpa [aiAttemptLoop, h'] using this
    · right
      simp [aiAttemptLoop, h']

/-! ## Claim C1: guaranteed template fallback -/

/-- Claim C1: whenever all three bounded generation attempts fail (timeout,
rate limit, API/network error, unparseable response, or a response missing
required fields), `_generate_ai_summary` still returns the fully-populated
template summary with `source = "template"`; the model is total, so no
exception reaches the caller. -/
theorem claim_C1_generator_failure_template (skills : List PSkill) (overall_score : ℚ)
    (o0 o1 o2 : AttemptOutcome)
    (h0 : isFailedAttempt o0 = true) (h1 : isFailedAttempt o1 = true)
    (h2 : isFailedAttempt o2 = true) :
    generate_ai_summary skills overall_score o0 o1 o2
      = generate_template_summary skills overall_score
    ∧ hasAllRequired (generate_template_summary skills overall_score) = true
    ∧ sourceOf (generate_template_summary skills overall_score)
        = some (FieldVal.str "template".toList) := by
  refine ⟨?_, hasAllRequired_template skills overall_score, sourceOf_template skills overall_score⟩
  have hall : ∀ o ∈ [o0, o1, o2], isFailedAttempt o = true := by
    intro o ho
    simp only [List.mem_cons, List.not_mem_nil, or_false] at ho
    rcases ho with rfl | rfl | rfl <;> assumption
  rcases aiAttemptLoop_all_failed (generate_template_summary skills overall_score) [o0, o1, o2]
      hall with h' | h'
  · simp [generate_ai_summary, h']
  · simp [generate_ai_summary, h']

/-- Witness for claim C1: a timeout, then a rate limit, then an API error. -/
theorem claim_C1_witness :
    generate_ai_summary [] 50 .timeout .rateLimit .apiError = generate_template_summary [] 50
    ∧ hasAllRequired (generate_template_summary [] 50) = true
    ∧ sourceOf (generate_template_summary [] 50) = some (FieldVal.str "template".toList) :=
  claim_C1_generator_failure_template [] 50 .timeout .rateLimit .apiError rfl rfl rfl

/-! ## Claim C7: content filter

The chain of lemmas shows a keyword occurring in any field survives the
join, the lowercasing and the bracket/comma blanking performed by
`_contains_offensive_content`, so the filter fires and the pipeline falls
back to the template. -/

theorem infix_of_mem_pyJoin {x : List Char} {sep : List Char} {parts : List (List Char)}
    (h : x ∈ parts) : x <:+: pyJoin sep parts := by
  induction parts with
  | nil => cases h
  | cons a rest ih =>
    cases rest with
    | nil =>
      have hx : x = a := by simpa using h
      subst hx
      exact List.infix_rfl
    | cons b rest2 =>
      rcases List.mem_cons.mp h with hx | hx
      · subst hx
        exact ⟨[], sep ++ pyJoin sep (b :: rest2), by simp [pyJoin, List.append_assoc]⟩
      · have h1 : x <:+: pyJoin sep (b :: rest2) := ih hx
        have h2 : pyJoin sep (b :: rest2) <:+: pyJoin sep (a :: b :: rest2) :=
          ⟨a ++ sep, [], by simp [pyJoin, List.append_assoc]⟩
        exact h1.trans h2

theorem infixMapLift (f : Char → Char) {l₁ l₂ : List Char} (h : l₁ <:+: l₂) :
    l₁.map f <:+: l₂.map f := by
  obtain ⟨s, t, rfl⟩ := h
  exact ⟨s.map f, t.map f, by simp⟩

theorem offensive_chars_fixed :
    ∀ kw ∈ OFFENSIVE_KEYWORDS, ∀ c ∈ lowerL kw.toList, replChar c = c := by
  decide

theorem infix_fixed_under_repl {k t : List Char} (hfix : ∀ c ∈ k, replChar c = c)
    (h : k <:+: t) : k <:+: t.map replChar := by
  obtain ⟨s, u, rfl⟩ := h
  have hk : k.map replChar = k := by
    induction k with
    | nil => rfl
    | cons c cs ih =>
      simp only [List.map_cons, hfix c (List.mem_cons_self c cs)]
      rw [ih (fun x hx => hfix x (List.mem_cons_of_mem c hx))]
  exact ⟨s.map replChar, u.map replChar, by simp [List.map_append, hk]⟩

theorem element_infix_listRepr {e : List Char} {l : List (List Char)} (h : e ∈ l) :
    e <:+: pyStrOfVal (.list l) := by
  have h1 : e <:+: [quoteChar] ++ e ++ [quoteChar] :=
    ⟨[quoteChar], [quoteChar], rfl⟩
  have h2 : ([quoteChar] ++ e ++ [quoteChar])
      ∈ l.map (fun x => [quoteChar] ++ x ++ [quoteChar]) :=
    List.mem_map_of_mem _ h
  have h3 : ([quoteChar] ++ e ++ [quoteChar])
      <:+: pyJoin [',', ' '] (l.map (fun x => [quoteChar] ++ x ++ [quoteChar])) :=
    infix_of_mem_pyJoin h2
  have h4 : pyJoin [',', ' '] (l.map (fun x => [quoteChar] ++ x ++ [quoteChar]))
      <:+: pyStrOfVal (.list l) :=
    ⟨['['], [']'], by simp [pyStrOfVal]⟩
  exact (h1.trans h3).trans h4

theorem keyword_in_field_infix {kw : String} {v : FieldVal}
    (h : keywordInField kw v = true) :
    lowerL kw.toList <:+: lowerL (pyStrOfVal v) := by
  cases v with
  | str s => exact of_decide_eq_true h
  | list l =>
    obtain ⟨e, he, hce⟩ := List.any_eq_true.mp h
    have h1 : lowerL kw.toList <:+: lowerL e := of_decide_eq_true hce
    have h2 : e <:+: pyStrOfVal (.list l) := element_infix_listRepr he
    have h3 : lowerL e <:+: lowerL (pyStrOfVal (.list l)) := infixMapLift Char.toLower h2
    exact h1.trans h3

theorem contains_offensive_of_field {p : SummaryDict} {kv : String × FieldVal} {kw : String}
    (hmem : kv ∈ p) (hkw : kw ∈ OFFENSIVE_KEYWORDS)
    (hfield : keywordInField kw kv.2 = true) :
    contains_offensive_content p = true := by
  unfold contains_offensive_content
  apply List.any_eq_true.mpr
  refine ⟨kw, hkw, decide_eq_true ?_⟩
  have h1 : lowerL kw.toList <:+: lowerL (pyStrOfVal kv.2) := keyword_in_field_infix hfield
  have h2 : lowerL (pyStrOfVal kv.2)
      ∈ p.map (fun kv => lowerL (pyStrOfVal kv.2)) :=
    List.mem_map_of_mem _ hmem
  have h3 : lowerL (pyStrOfVal kv.2)
      <:+: pyJoin [' '] (p.map (fun kv => lowerL (pyStrOfVal kv.2))) :=
    infix_of_mem_pyJoin h2
  exact infix_fixed_under_repl (offensive_chars_fixed kw hkw) (h1.trans h3)

/-- Claim C7: a successfully parsed generation response that carries all
required fields but contains a banned keyword (case-insensitive substring
of a string field or of an element of a list field) is rejected by the
content filter and the pipeline returns the template summary with
`source = "template"`. -/
theorem claim_C7_content_filter (skills : List PSkill) (overall_score : ℚ)
    (o1 o2 : AttemptOutcome) (p : SummaryDict) (kw : String) (kv : String × FieldVal)
    (hreq : hasAllRequired p = true) (hkw : kw ∈ OFFENSIVE_KEYWORDS)
    (hmem : kv ∈ p) (hfield : keywordInField kw kv.2 = true) :
    generate_ai_summary skills overall_score (.success (some p)) o1 o2
      = generate_template_summary skills overall_score
    ∧ sourceOf (generate_ai_summary skills overall_score (.success (some p)) o1 o2)
      = some (FieldVal.str "template".toList) := by
  have hoff : contains_offensive_content p = true :=
    contains_offensive_of_field hmem hkw hfield
  have hstep : generate_ai_summary skills overall_score (.success (some p)) o1 o2
      = generate_template_summary skills overall_score := by
    simp [generate_ai_summary, aiAttemptLoop, attemptStep, hreq, hoff]
  refine ⟨hstep, ?_⟩
  rw [hstep]
  exact sourceOf_template skills overall_score

/-- Witness for claim C7: a complete payload whose summary field contains
the banned keyword "explicit". -/
theorem claim_C7_witness :
    generate_ai_summary [] 50 (.success (some exOffensivePayload)) .timeout .timeout
      = generate_template_summary [] 50
    ∧ sourceOf (generate_ai_summary [] 50 (.success (some exOffensivePayload)) .timeout .timeout)
      = some (FieldVal.str "template".toList) :=
  claim_C7_content_filter [] 50 .timeout .timeout exOffensivePayload "explicit"
    ("summary", FieldVal.str "this summary has explicit wording".toList)
    (by decide) (by decide) (by decide) (by decide)

end SkillGap
